import Mathlib

/-!
# Verification of the Unidata LDM auxiliary scripts

A shallow embedding, in Lean 4, of the Python scripts of the Unidata/LDM
auxiliary-script repository, together with theorems settling a list of
claims about their behaviour.

The embedding covers:

* the Python-level primitives the scripts rely on (whitespace `str.split`,
  `int()` conversion, list indexing with negative indices, the regular
  expression searches `re.search(r'.*a.*b', line)` used by the log parser,
  `datetime.strptime`/`dateutil` timestamp parsing on the formats the log
  lines use);
* the LDM7 log parser `mcast_lib/FMTP-LDM7/LogParser/per-file-latency-parser.py`
  (`parseMLDM`, `parseBackstop`, `extractLog`, `main`);
* the OESS circuit-management scripts (`account.py`, `destroy.py`,
  `remove.py`, `provision.py`, `netInfo.py`): their credential handling,
  their `try/except` wrapping of `urlopen`, and their final result-logging
  statements;
* the `noaaport/noaaportBlender.py` supervisor (command-line construction,
  FIFO creation, and the `main` supervision loop);
* the `scour/testCscour.py` test harness (scenario status computation and
  process exit status).

Python exceptions are modelled with an `Except` monad over an explicit
exception type; Python `float` seconds values produced by
`timedelta.total_seconds()` are modelled exactly as rationals (the values
involved are small enough that the Python doubles are exact).
-/

namespace LDM

/-- The Python exception kinds raised by the modelled scripts. -/
inductive PyExc where
  | valueError
  | indexError
  | keyError
  | typeError
  | nameError
  | attributeError
  deriving DecidableEq, Repr

/-- Decidable equality for `Except`, so concrete script runs can be checked
by `decide`. -/
instance {ε α : Type} [DecidableEq ε] [DecidableEq α] :
    DecidableEq (Except ε α)
  | .ok a, .ok b =>
      if h : a = b then .isTrue (by rw [h]) else .isFalse (by simp [h])
  | .error a, .error b =>
      if h : a = b then .isTrue (by rw [h]) else .isFalse (by simp [h])
  | .ok _, .error _ => .isFalse (by simp)
  | .error _, .ok _ => .isFalse (by simp)

/-! ## Python string primitives -/

/-- The characters Python's `str.split()` (no argument) treats as whitespace
on ASCII input: space, tab, newline, carriage return, vertical tab, form feed. -/
def pyIsSpace (c : Char) : Bool :=
  c = ' ' || c = '\t' || c = '\n' || c = '\x0d' || c = '\x0b' || c = '\x0c'

/-- Helper for `pySplit`: splits a list of characters on runs of whitespace.
`cur` holds the (reversed) characters of the token being accumulated. -/
def pySplitAux : List Char → List Char → List (List Char)
  | [], [] => []
  | [], cur => [cur.reverse]
  | c :: cs, cur =>
      if pyIsSpace c then
        match cur with
        | [] => pySplitAux cs []
        | _ => cur.reverse :: pySplitAux cs []
      else
        pySplitAux cs (c :: cur)

/-- Python `line.split()` with no argument: splits on runs of whitespace and
drops empty tokens. -/
def pySplit (s : String) : List String :=
  (pySplitAux s.data []).map String.mk

/-- The effective index of Python list subscription: negative indices count
from the end. -/
def pyNormIdx (n : Nat) (i : Int) : Int :=
  if i < 0 then (n : Int) + i else i

/-- Python list indexing `xs[i]`, with negative indices counting from the
end; out-of-range access raises `IndexError`. -/
def pyIndex {α : Type} (xs : List α) (i : Int) : Except PyExc α :=
  if h : 0 ≤ pyNormIdx xs.length i ∧ (pyNormIdx xs.length i).toNat < xs.length
  then
    .ok (xs.get ⟨(pyNormIdx xs.length i).toNat, h.2⟩)
  else
    .error .indexError

/-- One decimal digit, or `none`. -/
def digitVal (c : Char) : Option Nat :=
  if '0' ≤ c ∧ c ≤ '9' then some (c.toNat - '0'.toNat) else none

/-- Whether every character of the list is a decimal digit. -/
def allDigits (cs : List Char) : Bool :=
  cs.all fun c => (digitVal c).isSome

/-- The number denoted by a digit string (most significant digit first). -/
def digitsToNat (cs : List Char) : Nat :=
  cs.foldl (fun acc c => 10 * acc + ((digitVal c).getD 0)) 0

/-- Python `int(s)` on ASCII input: strips surrounding whitespace, accepts an
optional sign followed by at least one decimal digit, and raises
`ValueError` otherwise. -/
def pyInt (s : String) : Except PyExc Int :=
  let core := (s.data.dropWhile pyIsSpace).reverse.dropWhile pyIsSpace |>.reverse
  match core with
  | '-' :: ds =>
      if ds ≠ [] ∧ allDigits ds then .ok (-(digitsToNat ds : Int)) else .error .valueError
  | '+' :: ds =>
      if ds ≠ [] ∧ allDigits ds then .ok (digitsToNat ds : Int) else .error .valueError
  | ds =>
      if ds ≠ [] ∧ allDigits ds then .ok (digitsToNat ds : Int) else .error .valueError

/-- Whether the pattern `p` occurs as a substring of `s` starting at index `i`. -/
def occursAt (p s : List Char) (i : Nat) : Bool :=
  p.isPrefixOf (s.drop i)

/-- Models `re.search(r'.*a.*b', line)` succeeding (for literal fragments
`a`, `b` without metacharacters): some occurrence of `a` is followed by an
occurrence of `b`, with no newline between the end of `a` and the start of
`b` (`.` does not match a newline; the leading `.*` adds nothing under
`re.search`). -/
def reSearchSeq (a b : String) (s : String) : Bool :=
  let cs := s.data
  (List.range (cs.length + 1)).any fun i =>
    occursAt a.data cs i &&
    (List.range (cs.length + 1)).any fun j =>
      i + a.data.length ≤ j && occursAt b.data cs j &&
      ((cs.drop (i + a.data.length)).take (j - (i + a.data.length))).all (· ≠ '\n')

/-! ## Timestamp primitives

The log parser subtracts a `datetime.strptime(_, "%Y%m%d%H%M%S.%f")` value
from a `dateutil.parser.parse(...).astimezone(pytz.utc).replace(tzinfo=None)`
value and takes `.total_seconds()`.  Both datetimes are modelled as integer
microsecond counts on a common proleptic-Gregorian timeline. -/

/-- Gregorian leap year. -/
def isLeapYear (y : Nat) : Bool :=
  y % 4 == 0 && (y % 100 != 0 || y % 400 == 0)

/-- Number of days in month `m` of year `y` (for `1 ≤ m ≤ 12`). -/
def daysInMonth (y m : Nat) : Nat :=
  if m = 2 then (if isLeapYear y then 29 else 28)
  else if m = 4 ∨ m = 6 ∨ m = 9 ∨ m = 11 then 30
  else 31

/-- Day number of the civil date `y-m-d` (days since 1970-01-01, Howard
Hinnant's days-from-civil algorithm). -/
def daysFromCivil (y m d : Int) : Int :=
  let y2 := if m ≤ 2 then y - 1 else y
  let era := Int.fdiv y2 400
  let yoe := y2 - era * 400
  let mshift := m + 9 - Int.fdiv (m + 9) 12 * 12
  let doy := Int.fdiv (153 * mshift + 2) 5 + d - 1
  let doe := yoe * 365 + Int.fdiv yoe 4 - Int.fdiv yoe 100 + doy
  era * 146097 + doe - 719468

/-- Microseconds since the epoch of the naive datetime `y-m-d h:mi:s.us`. -/
def toEpochMicro (y m d h mi s us : Nat) : Int :=
  daysFromCivil y m d * 86400000000 +
    ((h * 3600000000 + mi * 60000000 + s * 1000000 + us : Nat) : Int)

/-- Range validity of a civil date, as `datetime.datetime` enforces it
(`MINYEAR = 1`, `MAXYEAR = 9999`). -/
def validDate (y m d : Nat) : Bool :=
  1 ≤ y && y ≤ 9999 && 1 ≤ m && m ≤ 12 && 1 ≤ d && d ≤ daysInMonth y m

/-- Range validity of a time of day, as `datetime.datetime` enforces it. -/
def validTime (h mi s : Nat) : Bool :=
  h ≤ 23 && mi ≤ 59 && s ≤ 59

/-- Reads exactly `n` decimal digits from the front of a character list. -/
def readDigits (n : Nat) (cs : List Char) : Option (Nat × List Char) :=
  let ds := cs.take n
  if ds.length == n && allDigits ds then some (digitsToNat ds, cs.drop n) else none

/-- Consumes one expected character from the front of a character list. -/
def expectChar (c : Char) : List Char → Option (List Char)
  | x :: rest => if x = c then some rest else none
  | [] => none

/-- Reads an `n`-digit number followed, when `sep` is given, by that
separator character. -/
def readNumSep (n : Nat) (sep : Option Char) (cs : List Char) :
    Option (Nat × List Char) :=
  match readDigits n cs with
  | none => none
  | some (v, rest) =>
      match sep with
      | none => some (v, rest)
      | some c =>
          match expectChar c rest with
          | none => none
          | some rest2 => some (v, rest2)

/-- Reads three numeric fields of widths 4, 2, 2 with the given separators
(a calendar date). -/
def readDate (s1 s2 : Option Char) (cs : List Char) :
    Option (Nat × Nat × Nat × List Char) :=
  match readNumSep 4 s1 cs with
  | none => none
  | some (y, cs) =>
      match readNumSep 2 s2 cs with
      | none => none
      | some (m, cs) =>
          match readDigits 2 cs with
          | none => none
          | some (d, cs) => some (y, m, d, cs)

/-- Reads three two-digit numeric fields with the given separators (a time
of day). -/
def readTime (s1 s2 : Option Char) (cs : List Char) :
    Option (Nat × Nat × Nat × List Char) :=
  match readNumSep 2 s1 cs with
  | none => none
  | some (h, cs) =>
      match readNumSep 2 s2 cs with
      | none => none
      | some (mi, cs) =>
          match readDigits 2 cs with
          | none => none
          | some (s, cs) => some (h, mi, s, cs)

/-- Reads a fractional-second field `.d{1,6}`, returning its value in
microseconds. -/
def readFracCore : List Char → Option (Nat × List Char)
  | '.' :: rest =>
      let ds := rest.takeWhile fun c => (digitVal c).isSome
      if 1 ≤ ds.length && ds.length ≤ 6 then
        some (digitsToNat ds * 10 ^ (6 - ds.length), rest.drop ds.length)
      else none
  | _ => none

/-- Reads an optional fractional-second field (absent fraction reads as
zero microseconds). -/
def readFracOpt (cs : List Char) : Option (Nat × List Char) :=
  match cs with
  | '.' :: _ => readFracCore cs
  | _ => some (0, cs)

/-- Reads `HH:MM` to the end of the input and converts to microseconds. -/
def readOffset (cs : List Char) : Option Int :=
  match readNumSep 2 (some ':') cs with
  | none => none
  | some (h, cs) =>
      match readDigits 2 cs with
      | none => none
      | some (mi, cs) =>
          if cs.isEmpty && h ≤ 23 && mi ≤ 59 then
            some ((h : Int) * 3600000000 + (mi : Int) * 60000000)
          else none

/-- Reads a trailing UTC-offset designator: nothing (naive datetime), `Z`,
or `±HH:MM`; returns the offset in microseconds when one is present. -/
def readTzTail : List Char → Option (Option Int)
  | [] => some none
  | ['Z'] => some (some 0)
  | '+' :: rest => (readOffset rest).map (fun off => some off)
  | '-' :: rest => (readOffset rest).map (fun off => some (-off))
  | _ => none

/-- Models the Python library call `dateutil.parser.parse(s)` restricted to
ISO-8601 timestamps `YYYY-MM-DDTHH:MM:SS[.ffffff][Z|±HH:MM]` (the form of
the arrival-time column of the LDM log lines this parser consumes); every
other string is modelled as the `ValueError` dateutil raises on unparseable
input.  Returns the naive microsecond count together with the UTC offset
when one was given. -/
def dateutilParse (s : String) : Except PyExc (Int × Option Int) :=
  match dateutilParseCore s.data with
  | some v => .ok v
  | none => .error .valueError
where
  /-- The parsing chain. -/
  dateutilParseCore (cs : List Char) : Option (Int × Option Int) :=
    match readDate (some '-') (some '-') cs with
    | none => none
    | some (y, m, d, cs) =>
        match expectChar 'T' cs with
        | none => none
        | some cs =>
            match readTime (some ':') (some ':') cs with
            | none => none
            | some (h, mi, sec, cs) =>
                match readFracOpt cs with
                | none => none
                | some (us, cs) =>
                    match readTzTail cs with
                    | none => none
                    | some off =>
                        if validDate y m d && validTime h mi sec then
                          some (toEpochMicro y m d h mi sec us, off)
                        else none

/-- Models `t.astimezone(pytz.utc).replace(tzinfo=None)` applied to the
result of `dateutilParse`: a naive (offset-free) datetime makes Python 2's
`astimezone` raise `ValueError`; an aware one is converted to UTC by
subtracting its offset, and the tzinfo is dropped. -/
def pyAstimezoneUtc (t : Int × Option Int) : Except PyExc Int :=
  match t.2 with
  | none => .error .valueError
  | some off => .ok (t.1 - off)

/-- Models `datetime.datetime.strptime(s, "%Y%m%d%H%M%S.%f")` on the
zero-padded form the LDM log emits (4+2+2+2+2+2 digits, a dot, and one to
six fractional digits); any other string is modelled as `ValueError`. -/
def strptimeYmdHMSf (s : String) : Except PyExc Int :=
  match strptimeCore s.data with
  | some v => .ok v
  | none => .error .valueError
where
  /-- The parsing chain. -/
  strptimeCore (cs : List Char) : Option Int :=
    match readDate none none cs with
    | none => none
    | some (y, m, d, cs) =>
        match readTime none none cs with
        | none => none
        | some (h, mi, sec, cs) =>
            match readFracCore cs with
            | none => none
            | some (us, cs) =>
                if cs.isEmpty && validDate y m d && validTime h mi sec then
                  some (toEpochMicro y m d h mi sec us)
                else none

/-! ## The per-file latency parser
(`src/mcast_lib/FMTP-LDM7/LogParser/per-file-latency-parser.py`) -/

/-- The first half of the matched-line branch shared by `parseMLDM` and
`parseBackstop`: `prodindex = int(split_line[-1])` followed by
`size = int(split_line[sizeIdx])`, in that evaluation order. -/
def parseIndexAndSize (cols : List String) (sizeIdx : Int) :
    Except PyExc (Int × Int) :=
  match pyIndex cols (-1) with
  | .error e => .error e
  | .ok lastTok =>
      match pyInt lastTok with
      | .error e => .error e
      | .ok prodindex =>
          match pyIndex cols sizeIdx with
          | .error e => .error e
          | .ok sizeTok =>
              match pyInt sizeTok with
              | .error e => .error e
              | .ok size => .ok (prodindex, size)

/-- The second half of the matched-line branch:
`arrival_time = parse(split_line[0]).astimezone(pytz.utc).replace(tzinfo=None)`,
`insert_time = datetime.strptime(split_line[insIdx], "%Y%m%d%H%M%S.%f")`,
`rxtime = (arrival_time - insert_time).total_seconds()`, in that evaluation
order, with the exact rational number of seconds as result
(`Rat.divInt` of the microsecond difference by `10^6`). -/
def parseRxTime (cols : List String) (insIdx : Int) : Except PyExc Rat :=
  match pyIndex cols 0 with
  | .error e => .error e
  | .ok arrTok =>
      match dateutilParse arrTok with
      | .error e => .error e
      | .ok arrRaw =>
          match pyAstimezoneUtc arrRaw with
          | .error e => .error e
          | .ok arrival =>
              match pyIndex cols insIdx with
              | .error e => .error e
              | .ok insTok =>
                  match strptimeYmdHMSf insTok with
                  | .error e => .error e
                  | .ok insert =>
                      .ok (Rat.divInt (arrival - insert) 1000000)

/-- `parseMLDM(line)`: if `re.search(r'.*mldm.*Received', line)` succeeds,
split the line on whitespace and return
`(int(cols[-1]), int(cols[6]), rxtime)` with `rxtime` computed from
`cols[0]` and `cols[7]`; otherwise return `(-1, -1, -1)`. -/
def parseMLDM (line : String) : Except PyExc (Int × Int × Rat) :=
  if reSearchSeq "mldm" "Received" line then
    let cols := pySplit line
    match parseIndexAndSize cols 6 with
    | .error e => .error e
    | .ok (prodindex, size) =>
        match parseRxTime cols 7 with
        | .error e => .error e
        | .ok rxtime => .ok (prodindex, size, rxtime)
  else
    .ok (-1, -1, -1)

/-- `parseBackstop(line)`: if `re.search(r'.*down7.*Inserted', line)`
succeeds, split the line on whitespace and return
`(int(cols[-1]), int(cols[5]), rxtime)` with `rxtime` computed from
`cols[0]` and `cols[6]`; otherwise return `(-1, -1, -1)`. -/
def parseBackstop (line : String) : Except PyExc (Int × Int × Rat) :=
  if reSearchSeq "down7" "Inserted" line then
    let cols := pySplit line
    match parseIndexAndSize cols 5 with
    | .error e => .error e
    | .ok (prodindex, size) =>
        match parseRxTime cols 6 with
        | .error e => .error e
        | .ok rxtime => .ok (prodindex, size, rxtime)
  else
    .ok (-1, -1, -1)


/-! ## `extractLog` and `main` of the per-file latency parser

A Python `set` is modelled as an insertion-ordered duplicate-free list, a
Python `dict` as an insertion-ordered association list. -/

/-- The per-line work of `extractLog`'s loop: run `parseMLDM(line)` then
`parseBackstop(line)` (both are evaluated unconditionally, in this order, so
either exception propagates), then prefer the MLDM triple when its index is
`>= 0`, else the backstop triple when its index is `>= 0`.  Returns the
key/value pair the iteration records, if any: the product index and the
`(size, rxtime)` pair. -/
def lineKeyVal (line : String) : Except PyExc (Option (Int × Int × Rat)) :=
  match parseMLDM line with
  | .error e => .error e
  | .ok m =>
      match parseBackstop line with
      | .error e => .error e
      | .ok b =>
          if 0 ≤ m.1 then .ok (some m)
          else if 0 ≤ b.1 then .ok (some b)
          else .ok none

/-- `complete_set |= {k}` on the list model of a Python set. -/
def setAdd (s : List Int) (k : Int) : List Int :=
  if k ∈ s then s else s ++ [k]

/-- `if not complete_dict.has_key(k): complete_dict[k] = v` on the
association-list model of a Python dict. -/
def dictAddIfAbsent (d : List (Int × Int × Rat)) (k : Int) (v : Int × Rat) :
    List (Int × Int × Rat) :=
  if (List.lookup k d).isSome then d else d ++ [(k, v)]

/-- One iteration of `extractLog`'s `for` loop over the file's lines. -/
def extractLogStep (st : List Int × List (Int × Int × Rat)) (line : String) :
    Except PyExc (List Int × List (Int × Int × Rat)) :=
  match lineKeyVal line with
  | .error e => .error e
  | .ok none => .ok st
  | .ok (some (k, v)) => .ok (setAdd st.1 k, dictAddIfAbsent st.2 k v)

/-- `extractLog`'s loop from an intermediate state. -/
def extractLogFrom (st : List Int × List (Int × Int × Rat)) :
    List String → Except PyExc (List Int × List (Int × Int × Rat))
  | [] => .ok st
  | l :: ls =>
      match extractLogStep st l with
      | .error e => .error e
      | .ok st2 => extractLogFrom st2 ls

/-- `extractLog(filename)` (lines 98-122): scans the lines of the log file
and returns `(complete_set, complete_dict)`, starting from an empty set and
dict. -/
def extractLog (lines : List String) :
    Except PyExc (List Int × List (Int × Int × Rat)) :=
  extractLogFrom ([], []) lines

/-- `rx_success_dict[i]`: dict subscript, `KeyError` when absent. -/
def pyDictGet (d : List (Int × Int × Rat)) (k : Int) :
    Except PyExc (Int × Rat) :=
  match List.lookup k d with
  | some v => .ok v
  | none => .error .keyError

/-- The CSV rows written by `main`'s loop
`for i in rx_success_set: w.write(str(i) + ',' + str(rx_success_dict[i][1]) + '\n')`:
one `(prodindex, latency)` row per set element, the latency being the second
component of the dict entry. -/
def csvRowsFrom (d : List (Int × Int × Rat)) :
    List Int → Except PyExc (List (Int × Rat))
  | [] => .ok []
  | k :: ks =>
      match pyDictGet d k with
      | .error e => .error e
      | .ok v =>
          match csvRowsFrom d ks with
          | .error e => .error e
          | .ok rows => .ok ((k, v.2) :: rows)

/-- `main(logfile, csvfile)` of the per-file latency parser (lines 125-143):
extract the log, then write the header line `'prodindex, latency (s)'`
followed by the rows.  The result is the header together with the structured
rows (an uncaught exception of `extractLog` or of a dict lookup
propagates). -/
def logParserMain (lines : List String) :
    Except PyExc (String × List (Int × Rat)) :=
  match extractLog lines with
  | .error e => .error e
  | .ok (s, d) =>
      match csvRowsFrom d s with
      | .error e => .error e
      | .ok rows => .ok ("prodindex, latency (s)", rows)

/-- The `(size, rxtime)` value of the first line, in file order, that yields
the product index `k` (per `extractLog`'s precedence: a line yields the MLDM
index when the MLDM pattern matched with a nonnegative index, else the
backstop index when that one matched with a nonnegative index).  Lines whose
parsing raises contribute nothing here; the characterisation below is used
under the hypothesis that `extractLog` succeeded, which rules such lines
out. -/
def firstYield : List String → Int → Option (Int × Rat)
  | [], _ => none
  | l :: ls, k =>
      match lineKeyVal l with
      | .ok (some (k2, v)) => if k2 = k then some v else firstYield ls k
      | _ => firstYield ls k

/-! ## The OESS circuit-management scripts -/

/-- `readAccount(filename)` (account.py lines 22-27): reads the YAML
credentials file and returns the pair `(username, passwd)` — a 2-tuple,
modelled as the list of its components. -/
def readAccount (username passwd : String) : List String :=
  [username, passwd]

/-- Python tuple unpacking `(a, b, c) = t`: `ValueError` unless the sequence
has exactly three elements. -/
def pyUnpack3 {α : Type} (vs : List α) : Except PyExc (α × α × α) :=
  match vs with
  | [a, b, c] => .ok (a, b, c)
  | _ => .error .valueError

/-- destroy.py's top level (lines 22 onward):
`(workgroup,username,passwd) = account.readAccount(sys.argv[1])`, then
`getWkGpID` (method `get_workgroups`), `getCtID` (method
`get_existing_circuits`), and the `remove_circuit` POST.  The run is
modelled as the list of HTTP method names issued together with the
outcome; statements after an uncaught exception never execute.  (The HTTP
calls listed in the unreachable success branch are the three the script
text would issue.) -/
def destroyScriptRun (username passwd : String) :
    List String × Except PyExc Unit :=
  match pyUnpack3 (readAccount username passwd) with
  | .error e => ([], .error e)
  | .ok _ =>
      (["get_workgroups", "get_existing_circuits", "remove_circuit"], .ok ())

/-- remove.py's top level (lines 25 onward): the same three-name unpacking
of `readAccount`'s 2-tuple, then `getWkGpID`, `getCtID`,
`get_circuit_details` and further endpoint-dependent calls (elided, being
unreachable). -/
def removeScriptRun (username passwd : String) :
    List String × Except PyExc Unit :=
  match pyUnpack3 (readAccount username passwd) with
  | .error e => ([], .error e)
  | .ok _ =>
      (["get_workgroups", "get_existing_circuits", "get_circuit_details"],
        .ok ())

/-- Where the username/password of an HTTP Basic auth `add_password` call
come from: the `(username, passwd)` pair returned by `account.readAccount`
from the YAML credentials file named on the command line, a plain-text
local password file read with `open(path).read().split()`, or string
literals embedded in the script text. -/
inductive CredSource where
  | credentialsFile
  | passwordFile (path : String)
  | embedded (username passwd : String)
  deriving DecidableEq, Repr

/-- Whether a credential source reads the username/password from a local
file at run time (as opposed to embedding them in the script). -/
def credFromLocalFile : CredSource → Bool
  | .credentialsFile => true
  | .passwordFile _ => true
  | .embedded _ _ => false

/-- An HTTP request site of the circuit-management scripts: issuing script
(path within the repository), the line of its `add_password` call, target
URL, method/action parameter of the request(s) it authenticates, and the
credential source of its HTTP Basic auth registration. -/
structure OessRequest where
  script : String
  line : Nat
  url : String
  method : String
  auth : CredSource
  deriving DecidableEq, Repr

/-- The OESS data endpoint. -/
def dataCgi : String :=
  "https://al2s.net.internet2.edu/oess/services-kerb/data.cgi"

/-- The OESS provisioning endpoint. -/
def provisioningCgi : String :=
  "https://al2s.net.internet2.edu/oess/services-kerb/provisioning.cgi"

/-- Every `password_manager.add_password` call site of the repository's
circuit-management scripts, with the URL it registers, the method of the
request(s) issued under it, and where its username/password come from:

* the top-level scripts (account.py lines 34 and 53, destroy.py 30,
  edit.py 35 and 93, provision.py 34, remove.py 33 and 53), the
  OESS-Client family (account.py 35, 53 and 72, edit.py 27, 61, 84, 108
  and 126, provision.py 18, remove.py 18) and the mcast_lib/OESS-Client
  family (destroy.py 30, edit.py 32 and 68, provision.py 33, remove.py 33
  and 52, OESS-Client/edit.py 24 and 79) all pass `username`/`passwd`
  values obtained from `account.readAccount`'s YAML credentials file
  (directly at module level, or as function parameters forwarded from a
  caller's `readAccount` values);
* OESS-Client-V2/edit.py line 29 passes values read at lines 17-20 from
  the local plain-text file `/home/yt4xb/etc/OESS-password`;
* netInfo.py line 53 and OESS-Client-Version_1/provision.py line 21 pass
  the string literals `'uva4api'` and `'AL2Ssenyd2011!'`;
* OESS-Client-V2/provision.py lines 21 and 54 pass the literals
  `'name'`/`'passwd'`, and OESS-Client-V2/remove.py lines 19 and 35,
  OESS-Client-V2/edit.py lines 63, 86, 110 and 128, and
  OESS/OESS-Client-V2/provision.py lines 21 and 46 pass the literals
  `'username'`/`'passwd'`. -/
def oessRequestSites : List OessRequest :=
  [ ⟨"account.py", 34, dataCgi, "get_workgroups", .credentialsFile⟩,
    ⟨"account.py", 53, dataCgi, "get_existing_circuits", .credentialsFile⟩,
    ⟨"destroy.py", 30, provisioningCgi, "remove_circuit",
      .credentialsFile⟩,
    ⟨"edit.py", 35, dataCgi, "get_circuit_details", .credentialsFile⟩,
    ⟨"edit.py", 93, provisioningCgi, "provision_circuit",
      .credentialsFile⟩,
    ⟨"provision.py", 34, provisioningCgi, "provision_circuit",
      .credentialsFile⟩,
    ⟨"remove.py", 33, dataCgi, "get_circuit_details", .credentialsFile⟩,
    ⟨"remove.py", 53, provisioningCgi, "remove_circuit",
      .credentialsFile⟩,
    ⟨"netInfo.py", 53, dataCgi, "get_<argv[1]>",
      .embedded "uva4api" "AL2Ssenyd2011!"⟩,
    ⟨"OESS-Client/account.py", 35, dataCgi, "get_workgroups",
      .credentialsFile⟩,
    ⟨"OESS-Client/account.py", 53, dataCgi, "get_existing_circuits",
      .credentialsFile⟩,
    ⟨"OESS-Client/account.py", 72, dataCgi, "get_shortest_path",
      .credentialsFile⟩,
    ⟨"OESS-Client/edit.py", 27, dataCgi,
      "get_workgroups/get_circuit_details", .credentialsFile⟩,
    ⟨"OESS-Client/edit.py", 61, dataCgi, "get_shortest_path",
      .credentialsFile⟩,
    ⟨"OESS-Client/edit.py", 84, dataCgi, "get_shortest_path",
      .credentialsFile⟩,
    ⟨"OESS-Client/edit.py", 108, dataCgi, "get_shortest_path",
      .credentialsFile⟩,
    ⟨"OESS-Client/edit.py", 126, provisioningCgi, "provision_circuit",
      .credentialsFile⟩,
    ⟨"OESS-Client/provision.py", 18, provisioningCgi, "provision_circuit",
      .credentialsFile⟩,
    ⟨"OESS-Client/remove.py", 18, provisioningCgi, "remove_circuit",
      .credentialsFile⟩,
    ⟨"OESS-Client-V2/edit.py", 29, dataCgi,
      "get_workgroups/get_circuit_details",
      .passwordFile "/home/yt4xb/etc/OESS-password"⟩,
    ⟨"OESS-Client-V2/edit.py", 63, dataCgi, "get_shortest_path",
      .embedded "username" "passwd"⟩,
    ⟨"OESS-Client-V2/edit.py", 86, dataCgi, "get_shortest_path",
      .embedded "username" "passwd"⟩,
    ⟨"OESS-Client-V2/edit.py", 110, dataCgi, "get_shortest_path",
      .embedded "username" "passwd"⟩,
    ⟨"OESS-Client-V2/edit.py", 128, provisioningCgi, "provision_circuit",
      .embedded "username" "passwd"⟩,
    ⟨"OESS-Client-V2/provision.py", 21, dataCgi,
      "get_workgroups/get_shortest_path", .embedded "name" "passwd"⟩,
    ⟨"OESS-Client-V2/provision.py", 54, provisioningCgi,
      "provision_circuit", .embedded "name" "passwd"⟩,
    ⟨"OESS-Client-V2/remove.py", 19, dataCgi, "get_workgroups",
      .embedded "username" "passwd"⟩,
    ⟨"OESS-Client-V2/remove.py", 35, provisioningCgi, "remove_circuit",
      .embedded "username" "passwd"⟩,
    ⟨"OESS-Client-Version_1/provision.py", 21, provisioningCgi,
      "provision_circuit", .embedded "uva4api" "AL2Ssenyd2011!"⟩,
    ⟨"OESS/OESS-Client-V2/provision.py", 21, dataCgi,
      "get_workgroups/get_shortest_path", .embedded "username" "passwd"⟩,
    ⟨"OESS/OESS-Client-V2/provision.py", 46, provisioningCgi,
      "provision_circuit", .embedded "username" "passwd"⟩,
    ⟨"mcast_lib/OESS-Client/destroy.py", 30, provisioningCgi,
      "remove_circuit", .credentialsFile⟩,
    ⟨"mcast_lib/OESS-Client/edit.py", 32, dataCgi, "get_circuit_details",
      .credentialsFile⟩,
    ⟨"mcast_lib/OESS-Client/edit.py", 68, provisioningCgi,
      "provision_circuit", .credentialsFile⟩,
    ⟨"mcast_lib/OESS-Client/provision.py", 33, provisioningCgi,
      "provision_circuit", .credentialsFile⟩,
    ⟨"mcast_lib/OESS-Client/remove.py", 33, dataCgi,
      "get_circuit_details", .credentialsFile⟩,
    ⟨"mcast_lib/OESS-Client/remove.py", 52, provisioningCgi,
      "remove_circuit", .credentialsFile⟩,
    ⟨"mcast_lib/OESS-Client/OESS-Client/edit.py", 24, dataCgi,
      "get_circuit_details", .credentialsFile⟩,
    ⟨"mcast_lib/OESS-Client/OESS-Client/edit.py", 79, provisioningCgi,
      "provision_circuit", .credentialsFile⟩ ]

/-- The scripts with at least one request site whose credentials are
embedded string literals. -/
def embeddedCredScripts : List String :=
  ["netInfo.py", "OESS-Client-Version_1/provision.py",
   "OESS-Client-V2/provision.py", "OESS-Client-V2/remove.py",
   "OESS-Client-V2/edit.py", "OESS/OESS-Client-V2/provision.py"]

/-- The `urllib2` exception classes named by the scripts' `except` clauses. -/
inductive UrllibError where
  | urlError
  | httpError
  deriving DecidableEq, Repr

/-- Python's `isinstance` on the `urllib2` exception hierarchy:
`HTTPError` is declared as `class HTTPError(URLError, addinfourl)`, so an
`HTTPError` instance is also a `URLError` instance. -/
def urllibIsInstance (raised clause : UrllibError) : Bool :=
  match raised, clause with
  | _, .urlError => true
  | .httpError, .httpError => true
  | .urlError, .httpError => false

/-- A JSON scalar as the scripts handle it. -/
inductive PyVal where
  | str (s : String)
  | int (n : Int)
  deriving DecidableEq, Repr

/-- A parsed JSON payload as the scripts inspect it: the `results` field
(`None` or an object modelled by its fields) and the `error_text` field
when present. -/
structure Payload where
  results : Option (List (String × PyVal))
  errorText : Option String
  deriving DecidableEq, Repr

/-- The outcome of `urlopen` + `read` + `json.loads` on the
`remove_circuit` request: a parsed payload, or a raised `urllib2` error. -/
inductive UrlopenOutcome where
  | success (p : Payload)
  | raises (e : UrllibError)

/-- The `try/except` block around the `remove_circuit` request, textually
identical in destroy.py (lines 34-42) and remove.py
(lines 57-65): `except urllib2.URLError`
substitutes `{'error_text': 'URLError', 'results': None}`;
`except urllib2.HTTPError` substitutes
`{'error_text': 'HTTPError', 'results': None}`.  Clauses are tried in
source order with `isinstance` semantics; an exception matching no clause
would propagate. -/
def removeCircuitTryExcept (outcome : UrlopenOutcome) :
    Except UrllibError Payload :=
  match outcome with
  | .success p => .ok p
  | .raises e =>
      if urllibIsInstance e .urlError then
        .ok ⟨none, some "URLError"⟩
      else if urllibIsInstance e .httpError then
        .ok ⟨none, some "HTTPError"⟩
      else .error e

/-- An output line of the result-logging code. -/
inductive OutLine where
  | stderrLine (s : String)
  | stdoutLine (s : String)
  | fileLine (path s : String)
  deriving DecidableEq, Repr

/-- `jsonData['error_text']`: `KeyError` when the field is absent. -/
def payloadErrorText (p : Payload) : Except PyExc String :=
  match p.errorText with
  | some s => .ok s
  | none => .error .keyError

/-- destroy.py's final result logging (the cited lines 45-50 of the claim,
`if (searchResults == None): ... else: ...`): the failure branch writes one
line `"destroy.py: " + jsonData['error_text'] + '\n'` to stderr; the
success branch executes `sys.stderr.write()` — `write` called with no
argument — which raises `TypeError` before anything is written (the
success text appears only as an argument to the subsequent
`sys.stderr.flush(...)` call, which never runs). -/
def destroyResultLog (p : Payload) : Except PyExc (List OutLine) :=
  match p.results with
  | none =>
      match payloadErrorText p with
      | .error e => .error e
      | .ok et => .ok [.stderrLine ("destroy.py: " ++ et ++ "\n")]
  | some _ => .error .typeError

/-- remove.py's final result logging: failure branch writes
`"remove.py: " + error_text + '\n'` to stderr, success branch writes
`"remove.py: Success\n"` to stderr. -/
def removeResultLog (p : Payload) : Except PyExc (List OutLine) :=
  match p.results with
  | none =>
      match payloadErrorText p with
      | .error e => .error e
      | .ok et => .ok [.stderrLine ("remove.py: " ++ et ++ "\n")]
  | some _ => .ok [.stderrLine "remove.py: Success\n"]

/-- `searchResults['circuit_id']`: `KeyError` when absent. -/
def resultsCircuitId (fields : List (String × PyVal)) : Except PyExc PyVal :=
  match List.lookup "circuit_id" fields with
  | some v => .ok v
  | none => .error .keyError

/-- Python `circuit_id + '\n'`: string concatenation; `TypeError` when
`circuit_id` is not a string. -/
def pyAddNewline (v : PyVal) : Except PyExc String :=
  match v with
  | .str s => .ok (s ++ "\n")
  | .int _ => .error .typeError

/-- provision.py's final result logging on the `ct_id == 0` path (the cited
lines 45-53): failure branch writes one line to stderr; the success branch
writes `circuit_id + '\n'` to the file `circuit_id.log` and then to
standard output. -/
def provisionResultLog (p : Payload) : Except PyExc (List OutLine) :=
  match p.results with
  | none =>
      match payloadErrorText p with
      | .error e => .error e
      | .ok et => .ok [.stderrLine ("provision.py: " ++ et ++ "\n")]
  | some fields =>
      match resultsCircuitId fields with
      | .error e => .error e
      | .ok v =>
          match pyAddNewline v with
          | .error e => .error e
          | .ok line => .ok [.fileLine "circuit_id.log" line, .stdoutLine line]


/-! ## The noaaportBlender supervisor (`src/noaaport/noaaportBlender.py`) -/

/-- The command-line arguments of noaaportBlender.py as `cliParser` returns
them (`-x`, `-b`, `-n`, `-p`, and the required one-or-more `--fanout`
addresses). -/
structure CliArgs where
  debugMode : Bool
  blenderLogFile : Option String
  noaaportLogFile : Option String
  feedTypePort : Option String
  fanoutServerAddresses : List String
  deriving DecidableEq, Repr

/-- Helper for `pySplitOn`. -/
def pySplitOnAux (c : Char) : List Char → List Char → List (List Char)
  | [], cur => [cur.reverse]
  | x :: xs, cur =>
      if x = c then cur.reverse :: pySplitOnAux c xs []
      else pySplitOnAux c xs (x :: cur)

/-- Python `s.split(sep)` with a one-character separator: splits at every
occurrence, keeping empty pieces. -/
def pySplitOn (c : Char) (s : String) : List String :=
  (pySplitOnAux c s.data []).map String.mk

/-- The default `$LDMHOME` used by `NoaaportBlender.__init__` when the
environment variable is unset. -/
def ldmHomeDefault : String := "/home/miles/projects/ldm"

/-- `__init__`: `ldmHome = environ.get("LDMHOME", default)`;
`self.noaaportPath = f"{ldmHome}/src/noaaport"`. -/
def noaaportPathOf (ldmHomeEnv : Option String) : String :=
  (ldmHomeEnv.getD ldmHomeDefault) ++ "/src/noaaport"

/-- The relevant instance state of `NoaaportBlender` after
`buildLogFilesAndFifo` has run. -/
structure BlenderState where
  noaaportPath : String
  noaaportLogFile : String
  blenderLogFile : String
  port : String
  fifoName : String
  deriving DecidableEq, Repr

/-- `makePipe(feedTypePort)` (lines 273-292): the pipe path is
`f"{self.FIFO_name}{feedTypePort}.fifo"` (with `self.FIFO_name` still its
initial value `"/tmp/blender_"` when called from `buildLogFilesAndFifo`);
`mkfifo` is attempted exactly when the path does not already exist (its
failure is swallowed), and the path is returned in every case.  Result:
the path and whether creation was attempted. -/
def makePipe (fifoPrefix feedTypePort : String) (fifoExists : Bool) :
    String × Bool :=
  (fifoPrefix ++ feedTypePort ++ ".fifo", !fifoExists)

/-- The part of `buildLogFilesAndFifo` after the port is known: default the
two log files to `/tmp/noaaport_<port>.log` and `/tmp/blender_<port>.log`
when the `-n`/`-b` options are absent, then set
`self.FIFO_name = self.makePipe(self.port)`. -/
def buildWithPort (ldmHomeEnv : Option String) (a : CliArgs)
    (fifoExists : Bool) (port : String) : BlenderState × Bool :=
  let nlog := a.noaaportLogFile.getD ("/tmp/noaaport_" ++ port ++ ".log")
  let blog := a.blenderLogFile.getD ("/tmp/blender_" ++ port ++ ".log")
  let fifo := makePipe "/tmp/blender_" port fifoExists
  (⟨noaaportPathOf ldmHomeEnv, nlog, blog, port, fifo.1⟩, fifo.2)

/-- `buildLogFilesAndFifo(cliArgs)` (lines 186-209): the port is the `-p`
option when given, else `fanoutServerAddresses[0].split(':')[1]` (either
subscript can raise `IndexError`); then the log files and the FIFO are
set up. -/
def buildLogFilesAndFifo (ldmHomeEnv : Option String) (a : CliArgs)
    (fifoExists : Bool) : Except PyExc (BlenderState × Bool) :=
  match a.feedTypePort with
  | some p => .ok (buildWithPort ldmHomeEnv a fifoExists p)
  | none =>
      match pyIndex a.fanoutServerAddresses 0 with
      | .error e => .error e
      | .ok addr =>
          match pyIndex (pySplitOn ':' addr) 1 with
          | .error e => .error e
          | .ok p => .ok (buildWithPort ldmHomeEnv a fifoExists p)

/-- `prepareNoaaportCmd` (lines 213-218):
`noaaportArgs = f" -l {self.noaaportLogFile} < {self.FIFO_name}"`,
`noaaportCmd = f"{self.noaaportPath}/noaaportIngester     {noaaportArgs} &"`. -/
def prepareNoaaportCmd (st : BlenderState) : String :=
  st.noaaportPath ++ "/noaaportIngester     " ++
    (" -l " ++ st.noaaportLogFile ++ " < " ++ st.fifoName) ++ " &"

/-- The `for hostId in cliArg["fanoutServerAddresses"]` accumulation
`blenderArgs += f" {hostId} "`. -/
def hostArgs : List String → String
  | [] => ""
  | h :: rest => " " ++ h ++ " " ++ hostArgs rest

/-- The `blenderArgs` string of `prepareBlenderCmd` (lines 164-183):
`" -t 0.01 "`, then `" -x "` in debug mode, then
`f" -l {self.blenderLogFile} "`, the fanout addresses, and
`f"  > {self.FIFO_name}"`. -/
def blenderArgsOf (st : BlenderState) (a : CliArgs) : String :=
  " -t 0.01 " ++ (if a.debugMode then " -x " else "") ++
    (" -l " ++ st.blenderLogFile ++ " ") ++
    hostArgs a.fanoutServerAddresses ++
    ("  > " ++ st.fifoName)

/-- `prepareBlenderCmd`:
`blenderCmd = f"{self.noaaportPath}/blender {blenderArgs} &"`. -/
def prepareBlenderCmd (st : BlenderState) (a : CliArgs) : String :=
  st.noaaportPath ++ "/blender " ++ blenderArgsOf st a ++ " &"

/-- Number of occurrences of a character in a string. -/
def countChar (s : String) (c : Char) : Nat :=
  s.data.count c

/-- A string free of shell redirection characters. -/
def noRedirChars (s : String) : Prop :=
  countChar s '<' = 0 ∧ countChar s '>' = 0

instance (s : String) : Decidable (noRedirChars s) :=
  inferInstanceAs (Decidable (_ ∧ _))

/-- An observable event of the supervisor's `main`. -/
inductive SupEvent where
  | spawn (cmd : String)
  | wait (cmd : String)
  | sleep
  deriving DecidableEq, Repr

/-- The names in scope in `main` (module globals, imported names, `main`'s
locals bound so far) plus Python's relevant builtin constants, when the
`while` condition on line 407 is first evaluated.  Python's boolean literal
is `True`; no binding of `true` exists anywhere in the script. -/
def mainScopeNames : List String :=
  ["os", "signal", "sys", "subprocess", "psutil", "time", "environ",
   "system", "Path", "argparse", "NoaaportBlender", "main", "noaaBPInst",
   "cliArg", "noaaportCmd", "blenderCmd", "True", "False", "None"]

/-- Python identifier lookup: `NameError` when the name is unbound. -/
def pyLookupName (names : List String) (x : String) : Except PyExc Unit :=
  if x ∈ names then .ok () else .error .nameError

/-- The names in scope inside the loop body after lines 412-413 have bound
`nooaProc` (note the transposed spelling) and `blenderProc`. -/
def loopBodyScopeNames : List String :=
  mainScopeNames ++ ["nooaProc", "blenderProc"]

/-- One iteration of the `while` loop body of `main` (lines 409-418), were
it entered: `subprocess.Popen(noaaportCmd, ...)` on line 412 and — again —
`subprocess.Popen(noaaportCmd, ...)` on line 413 (the constructed
`blenderCmd` is never passed to `Popen`); line 415 then evaluates the
unbound name `noaaProc` (the variable bound on line 412 is `nooaProc`),
raising `NameError`.  The body contains no `time.sleep` call. -/
def noaaportBlenderLoopBody (noaaportCmd blenderCmd : String) :
    List SupEvent × Except PyExc Unit :=
  let spawned := [SupEvent.spawn noaaportCmd, SupEvent.spawn noaaportCmd]
  match pyLookupName loopBodyScopeNames "noaaProc" with
  | .error e => (spawned, .error e)
  | .ok _ =>
      (spawned ++ [SupEvent.wait noaaportCmd, SupEvent.wait blenderCmd],
        .ok ())

/-- `main`'s supervision loop (lines 407-418): `while true:` first evaluates
the name `true`, which is unbound (Python spells the constant `True`), so
the loop raises `NameError` before its body ever runs. -/
def noaaportBlenderMain (noaaportCmd blenderCmd : String) :
    List SupEvent × Except PyExc Unit :=
  match pyLookupName mainScopeNames "true" with
  | .error e => ([], .error e)
  | .ok _ => noaaportBlenderLoopBody noaaportCmd blenderCmd

/-! ## The testCscour.py harness (`src/scour/testCscour.py`) -/

/-- One `if <pass>: print(SUCCESS) else: print(FAIL); status = 1` check. -/
def updStatus (st : Nat) (pass : Bool) : Nat :=
  if pass then st else 1

/-- A two-condition check block
`if ok: print(SUCCESS) else: (if fail: print(FAIL); status = 1)`. -/
def updStatusIf (st : Nat) (ok fail : Bool) : Nat :=
  if ok then st else if fail then 1 else st

/-- The filesystem facts `SymlinkDeletion.assertSymlink` inspects after the
external `scour` run (each field is the corresponding `os.path` test). -/
structure SymlinkFsOutcome where
  altDirPrecipExists : Bool
  vesuviusPrecipExists : Bool
  etnaPrecipExists : Bool
  slFileTargetExists : Bool
  slFileLinkIsLink : Bool
  slDirTargetExists : Bool
  slDirTargetIsDir : Bool
  slDirLinkExists : Bool
  slDirLinkIsLink : Bool
  deriving DecidableEq, Repr

/-- `SymlinkDeletion.assertSymlink`: `status` starts at 0; three plain
file-deletion checks, the file-symlink block, and the directory-symlink
block, each able only to keep `status` or set it to 1; the final `status`
is returned. -/
def assertSymlink (fs : SymlinkFsOutcome) : Nat :=
  let st : Nat := 0
  let st := updStatus st (!fs.altDirPrecipExists)
  let st := updStatus st (!fs.vesuviusPrecipExists)
  let st := updStatus st (!fs.etnaPrecipExists)
  let st := updStatusIf st (!fs.slFileTargetExists && !fs.slFileLinkIsLink)
    (fs.slFileTargetExists || fs.slFileLinkIsLink)
  let st := updStatusIf st
    (fs.slDirTargetExists && fs.slDirTargetIsDir && fs.slDirLinkExists &&
      fs.slDirLinkIsLink)
    (!fs.slDirTargetExists || !fs.slDirLinkIsLink)
  st

/-- The filesystem facts `EmptyDirectoriesDeletion.assertDirectoriesRemoved`
inspects (each field is an `os.path.exists` test). -/
structure EmptyDirsFsOutcome where
  altDirPrecipExists : Bool
  etnaPrecipExists : Bool
  altDirExists : Bool
  etnaExists : Bool
  dirDoesNotExistExists : Bool
  excludeMeExists : Bool
  deriving DecidableEq, Repr

/-- `EmptyDirectoriesDeletion.assertDirectoriesRemoved`: six
`if not os.path.exists(...)` checks, each able only to keep `status` or set
it to 1. -/
def assertDirectoriesRemoved (fs : EmptyDirsFsOutcome) : Nat :=
  let st : Nat := 0
  let st := updStatus st (!fs.altDirPrecipExists)
  let st := updStatus st (!fs.etnaPrecipExists)
  let st := updStatus st (!fs.altDirExists)
  let st := updStatus st (!fs.etnaExists)
  let st := updStatus st (!fs.dirDoesNotExistExists)
  let st := updStatus st (!fs.excludeMeExists)
  st

/-- `testCscour.main` (lines 541-578): the two scenarios are run and
`exit(ed_status * sl_status)` is called with the product of their
statuses. -/
def testCscourExit (slFs : SymlinkFsOutcome) (edFs : EmptyDirsFsOutcome) :
    Nat :=
  assertDirectoriesRemoved edFs * assertSymlink slFs


/-! ## Theorems -/

lemma parseRxTime_ok_index {cols : List String} {insIdx : Int} {r : Rat}
    (h : parseRxTime cols insIdx = .ok r) :
    ∃ t, pyIndex cols insIdx = .ok t := by
  unfold parseRxTime at h
  cases h0 : pyIndex cols 0 with
  | error e => rw [h0] at h; simp at h
  | ok arrTok =>
    rw [h0] at h; dsimp only at h
    cases h1 : dateutilParse arrTok with
    | error e => rw [h1] at h; simp at h
    | ok arrRaw =>
      rw [h1] at h; dsimp only at h
      cases h2 : pyAstimezoneUtc arrRaw with
      | error e => rw [h2] at h; simp at h
      | ok arrival =>
        rw [h2] at h; dsimp only at h
        cases h3 : pyIndex cols insIdx with
        | error e => rw [h3] at h; simp at h
        | ok t => exact ⟨t, rfl⟩

lemma pyIndex_ok_lt {α : Type} {xs : List α} {i : Int} {t : α}
    (hi : 0 ≤ i) (h : pyIndex xs i = .ok t) : i.toNat < xs.length := by
  have hn : pyNormIdx xs.length i = i := if_neg (not_lt.mpr hi)
  unfold pyIndex at h
  split at h
  · next hc =>
      have := hc.2
      rw [hn] at this
      exact this
  · exact absurd h (by simp)

/-- C9 counterexample: a line matching `.*mldm.*Received` whose last and
seventh columns are `-1` and whose timestamps differ by exactly minus one
second makes `parseMLDM` return `(-1, -1, -1)`, so the sentinel value is
not returned exactly on the non-matching lines. -/
theorem parseMLDM_matching_line_can_return_sentinel :
    reSearchSeq "mldm" "Received"
      "2015-01-01T00:00:01+00:00 x x x x x -1 20150101000002.000000 mldm Received -1" =
      true ∧
    parseMLDM
      "2015-01-01T00:00:01+00:00 x x x x x -1 20150101000002.000000 mldm Received -1" =
      .ok (-1, -1, -1) := by decide

/-- C9 (amended): `parseMLDM` and `parseBackstop` return `(-1, -1, -1)`
for every line that does not match their search patterns; a matching line
that lacks the needed whitespace-separated columns makes them raise an
exception rather than return the sentinel; but a matching line's computed
tuple may itself coincide with `(-1, -1, -1)`. -/
theorem parse_sentinel_iff_no_match_amended :
    (∀ l, reSearchSeq "mldm" "Received" l = false →
      parseMLDM l = .ok (-1, -1, -1)) ∧
    (∀ l, reSearchSeq "down7" "Inserted" l = false →
      parseBackstop l = .ok (-1, -1, -1)) ∧
    (∀ l, reSearchSeq "mldm" "Received" l = true →
      (pySplit l).length < 8 → ∃ e, parseMLDM l = .error e) ∧
    (∀ l, reSearchSeq "down7" "Inserted" l = true →
      (pySplit l).length < 7 → ∃ e, parseBackstop l = .error e) := by
  refine ⟨?_, ?_, ?_, ?_⟩
  · intro l h
    simp [parseMLDM, h]
  · intro l h
    simp [parseBackstop, h]
  · intro l hm hlen
    cases hres : parseMLDM l with
    | error e => exact ⟨e, rfl⟩
    | ok v =>
      exfalso
      unfold parseMLDM at hres
      rw [if_pos hm] at hres
      dsimp only at hres
      cases h1 : parseIndexAndSize (pySplit l) 6 with
      | error e => rw [h1] at hres; simp at hres
      | ok p =>
        rw [h1] at hres
        obtain ⟨pi, sz⟩ := p
        dsimp only at hres
        cases h2 : parseRxTime (pySplit l) 7 with
        | error e => rw [h2] at hres; simp at hres
        | ok r =>
          obtain ⟨t, ht⟩ := parseRxTime_ok_index h2
          have := pyIndex_ok_lt (by norm_num) ht
          omega
  · intro l hm hlen
    cases hres : parseBackstop l with
    | error e => exact ⟨e, rfl⟩
    | ok v =>
      exfalso
      unfold parseBackstop at hres
      rw [if_pos hm] at hres
      dsimp only at hres
      cases h1 : parseIndexAndSize (pySplit l) 5 with
      | error e => rw [h1] at hres; simp at hres
      | ok p =>
        rw [h1] at hres
        obtain ⟨pi, sz⟩ := p
        dsimp only at hres
        cases h2 : parseRxTime (pySplit l) 6 with
        | error e => rw [h2] at hres; simp at hres
        | ok r =>
          obtain ⟨t, ht⟩ := parseRxTime_ok_index h2
          have := pyIndex_ok_lt (by norm_num) ht
          omega

/-- Witness for C9's amended theorem at concrete lines. -/
theorem parse_sentinel_iff_no_match_amended_witness :
    parseMLDM "a plain log line" = .ok (-1, -1, -1) ∧
    parseBackstop "a plain log line" = .ok (-1, -1, -1) ∧
    (∃ e, parseMLDM "mldmReceived" = .error e) ∧
    (∃ e, parseBackstop "down7Inserted" = .error e) :=
  ⟨parse_sentinel_iff_no_match_amended.1 _ (by decide),
    parse_sentinel_iff_no_match_amended.2.1 _ (by decide),
    parse_sentinel_iff_no_match_amended.2.2.1 _ (by decide) (by decide),
    parse_sentinel_iff_no_match_amended.2.2.2 _ (by decide) (by decide)⟩

lemma list_lookup_append {β : Type} (k : Int) (d1 d2 : List (Int × β)) :
    List.lookup k (d1 ++ d2) = (List.lookup k d1).or (List.lookup k d2) := by
  induction d1 with
  | nil => simp [List.lookup]
  | cons p t ih =>
      obtain ⟨a, b⟩ := p
      cases hk : k == a with
      | true => simp [List.lookup, hk]
      | false => simp [List.lookup, hk, ih]

lemma mem_setAdd {s : List Int} {k x : Int} :
    x ∈ setAdd s k ↔ x ∈ s ∨ x = k := by
  unfold setAdd
  split
  · next hin =>
      constructor
      · exact Or.inl
      · rintro (h | rfl)
        · exact h
        · exact hin
  · simp

lemma setAdd_nodup {s : List Int} {k : Int} (h : s.Nodup) :
    (setAdd s k).Nodup := by
  unfold setAdd
  split
  · exact h
  · next hnin =>
      simp [List.nodup_append, h, hnin]

lemma lookup_dictAdd_isSome {d : List (Int × Int × Rat)} {k2 k : Int}
    {v : Int × Rat} (h : (List.lookup k d).isSome) :
    (List.lookup k (dictAddIfAbsent d k2 v)).isSome := by
  unfold dictAddIfAbsent
  split
  · exact h
  · rw [list_lookup_append]
    obtain ⟨w, hw⟩ := Option.isSome_iff_exists.mp h
    rw [hw]
    rfl

lemma lookup_dictAdd_self {d : List (Int × Int × Rat)} {k : Int}
    {v : Int × Rat} : (List.lookup k (dictAddIfAbsent d k v)).isSome := by
  unfold dictAddIfAbsent
  split
  · next hs => exact hs
  · next hs =>
      rw [list_lookup_append, Option.not_isSome_iff_eq_none.mp hs]
      simp [List.lookup]

lemma extractLogFrom_lookup {lines : List String} {s0 s : List Int}
    {d0 d : List (Int × Int × Rat)}
    (h : extractLogFrom (s0, d0) lines = .ok (s, d)) (k : Int) :
    List.lookup k d = (List.lookup k d0).or (firstYield lines k) := by
  induction lines generalizing s0 d0 with
  | nil =>
      simp only [extractLogFrom, Except.ok.injEq, Prod.mk.injEq] at h
      rw [← h.2, firstYield]
      cases List.lookup k d0 <;> rfl
  | cons l ls ih =>
      simp only [extractLogFrom] at h
      cases hstep : extractLogStep (s0, d0) l with
      | error e => rw [hstep] at h; simp at h
      | ok st2 =>
          rw [hstep] at h
          dsimp only at h
          obtain ⟨s2, d2⟩ := st2
          have hrec := ih h
          unfold extractLogStep at hstep
          cases hkv : lineKeyVal l with
          | error e => rw [hkv] at hstep; simp at hstep
          | ok kv =>
              rw [hkv] at hstep
              cases kv with
              | none =>
                  simp only [Except.ok.injEq, Prod.mk.injEq] at hstep
                  rw [hrec, ← hstep.2]
                  rw [firstYield, hkv]
              | some kvp =>
                  obtain ⟨k2, v⟩ := kvp
                  simp only [Except.ok.injEq, Prod.mk.injEq] at hstep
                  rw [hrec, ← hstep.2]
                  have hfy : firstYield (l :: ls) k =
                      if k2 = k then some v else firstYield ls k := by
                    rw [firstYield, hkv]
                  rw [hfy]
                  unfold dictAddIfAbsent
                  by_cases habs : (List.lookup k2 d0).isSome
                  · rw [if_pos habs]
                    by_cases hk : k2 = k
                    · subst hk
                      obtain ⟨w, hw⟩ := Option.isSome_iff_exists.mp habs
                      rw [hw]
                      rfl
                    · rw [if_neg hk]
                  · rw [if_neg habs, list_lookup_append]
                    by_cases hk : k2 = k
                    · subst hk
                      have hnone : List.lookup k2 d0 = none :=
                        Option.not_isSome_iff_eq_none.mp habs
                      rw [hnone]
                      have : List.lookup k2 [(k2, v)] = some v := by
                        simp [List.lookup]
                      rw [this, if_pos rfl]
                      rfl
                    · rw [if_neg hk]
                      have : List.lookup k [(k2, v)] = none := by
                        have : (k == k2) = false :=
                          beq_eq_false_iff_ne.mpr (Ne.symm hk)
                        simp [List.lookup, this]
                      rw [this]
                      cases List.lookup k d0 <;> rfl

lemma extractLogFrom_inv {lines : List String} {s0 s : List Int}
    {d0 d : List (Int × Int × Rat)}
    (h : extractLogFrom (s0, d0) lines = .ok (s, d))
    (hnodup : s0.Nodup) (hkeys : ∀ k ∈ s0, (List.lookup k d0).isSome) :
    s.Nodup ∧ ∀ k ∈ s, (List.lookup k d).isSome := by
  induction lines generalizing s0 d0 with
  | nil =>
      simp only [extractLogFrom, Except.ok.injEq, Prod.mk.injEq] at h
      rw [← h.1, ← h.2]
      exact ⟨hnodup, hkeys⟩
  | cons l ls ih =>
      simp only [extractLogFrom] at h
      cases hstep : extractLogStep (s0, d0) l with
      | error e => rw [hstep] at h; simp at h
      | ok st2 =>
          rw [hstep] at h
          dsimp only at h
          obtain ⟨s2, d2⟩ := st2
          unfold extractLogStep at hstep
          cases hkv : lineKeyVal l with
          | error e => rw [hkv] at hstep; simp at hstep
          | ok kv =>
              rw [hkv] at hstep
              cases kv with
              | none =>
                  simp only [Except.ok.injEq, Prod.mk.injEq] at hstep
                  exact ih h (hstep.1 ▸ hnodup) (fun k hk =>
                    hstep.2 ▸ hkeys k (hstep.1 ▸ hk))
              | some kvp =>
                  obtain ⟨k2, v⟩ := kvp
                  simp only [Except.ok.injEq, Prod.mk.injEq] at hstep
                  refine ih h (hstep.1 ▸ setAdd_nodup hnodup) ?_
                  intro k hk
                  rw [← hstep.2]
                  rw [← hstep.1] at hk
                  rcases mem_setAdd.mp hk with hmem | rfl
                  · exact lookup_dictAdd_isSome (hkeys k hmem)
                  · exact lookup_dictAdd_self

lemma csvRowsFrom_ok {d : List (Int × Int × Rat)} {ks : List Int}
    (hk : ∀ k ∈ ks, (List.lookup k d).isSome) :
    ∃ rows, csvRowsFrom d ks = .ok rows ∧ rows.map Prod.fst = ks ∧
      ∀ r ∈ rows, ∃ sz, List.lookup r.1 d = some (sz, r.2) := by
  induction ks with
  | nil => exact ⟨[], rfl, rfl, by simp⟩
  | cons k t ih =>
      obtain ⟨w, hw⟩ :=
        Option.isSome_iff_exists.mp (hk k (List.mem_cons_self _ _))
      obtain ⟨rows, hrows, hmap, hval⟩ :=
        ih fun y hy => hk y (List.mem_cons_of_mem _ hy)
      refine ⟨(k, w.2) :: rows, ?_, ?_, ?_⟩
      · simp [csvRowsFrom, pyDictGet, hw, hrows]
      · simp [hmap]
      · intro r hr
        rcases List.mem_cons.mp hr with rfl | hr2
        · exact ⟨w.1, by rw [hw]⟩
        · exact hval r hr2

/-- C2: in the dictionary built by `extractLog`, every product index is
mapped to the `(size, rxtime)` pair of the first line, in file order, that
yields that index; later lines yielding the same index leave the entry
unchanged (first occurrence wins). -/
theorem extractLog_first_occurrence_wins {lines : List String}
    {s : List Int} {d : List (Int × Int × Rat)}
    (h : extractLog lines = .ok (s, d)) (k : Int) :
    List.lookup k d = firstYield lines k := by
  have hmain := extractLogFrom_lookup h k
  rw [hmain]
  rfl

/-- C7: whenever `extractLog` succeeds, the parser's `main` produces the
header line `'prodindex, latency (s)'` followed by exactly one row per
distinct extracted product index, each row pairing the index with its
recorded latency; no index appears in two rows and every row's latency is
the one stored in the dictionary. -/
theorem logParserMain_one_row_per_index {lines : List String}
    {s : List Int} {d : List (Int × Int × Rat)}
    (h : extractLog lines = .ok (s, d)) :
    ∃ rows, logParserMain lines = .ok ("prodindex, latency (s)", rows) ∧
      rows.map Prod.fst = s ∧ s.Nodup ∧
      ∀ r ∈ rows, ∃ sz, List.lookup r.1 d = some (sz, r.2) := by
  have hinv := extractLogFrom_inv h List.nodup_nil
    (by intro k hk; cases hk)
  obtain ⟨rows, hrows, hmap, hval⟩ := csvRowsFrom_ok hinv.2
  refine ⟨rows, ?_, hmap, hinv.1, hval⟩
  unfold logParserMain
  rw [h]
  dsimp only
  rw [hrows]

/-- Witness for C2's theorem at a concrete three-line log with a repeated
index. -/
theorem extractLog_first_occurrence_wins_witness :
    extractLog
      ["2015-01-01T00:00:05+00:00 mldm x x x x 100 20150101000002.000000 Received 7",
       "2015-01-01T00:00:09+00:00 mldm y y y y 555 20150101000002.000000 Received 7",
       "2015-01-01T00:00:05+00:00 down7 a b c 200 20150101000002.000000 Inserted 9"] =
      .ok ([7, 9], [(7, 100, 3), (9, 200, 3)]) ∧
    List.lookup 7 [((7 : Int), (100 : Int), (3 : Rat)), (9, 200, 3)] =
      firstYield
        ["2015-01-01T00:00:05+00:00 mldm x x x x 100 20150101000002.000000 Received 7",
         "2015-01-01T00:00:09+00:00 mldm y y y y 555 20150101000002.000000 Received 7",
         "2015-01-01T00:00:05+00:00 down7 a b c 200 20150101000002.000000 Inserted 9"] 7 ∧
    firstYield
      ["2015-01-01T00:00:05+00:00 mldm x x x x 100 20150101000002.000000 Received 7",
       "2015-01-01T00:00:09+00:00 mldm y y y y 555 20150101000002.000000 Received 7",
       "2015-01-01T00:00:05+00:00 down7 a b c 200 20150101000002.000000 Inserted 9"] 7 = some (100, 3) :=
  ⟨by decide,
    @extractLog_first_occurrence_wins
      ["2015-01-01T00:00:05+00:00 mldm x x x x 100 20150101000002.000000 Received 7",
       "2015-01-01T00:00:09+00:00 mldm y y y y 555 20150101000002.000000 Received 7",
       "2015-01-01T00:00:05+00:00 down7 a b c 200 20150101000002.000000 Inserted 9"]
      [7, 9] [(7, 100, 3), (9, 200, 3)] (by decide) 7, by decide⟩

/-- Witness for C7's theorem at a concrete three-line log. -/
theorem logParserMain_one_row_per_index_witness :
    extractLog
      ["2015-01-01T00:00:05+00:00 mldm x x x x 100 20150101000002.000000 Received 7",
       "2015-01-01T00:00:09+00:00 mldm y y y y 555 20150101000002.000000 Received 7",
       "2015-01-01T00:00:05+00:00 down7 a b c 200 20150101000002.000000 Inserted 9"] =
      .ok (([7, 9] : List Int),
        ([(7, 100, 3), (9, 200, 3)] : List (Int × Int × Rat))) ∧
    (∃ rows,
      logParserMain
        ["2015-01-01T00:00:05+00:00 mldm x x x x 100 20150101000002.000000 Received 7",
         "2015-01-01T00:00:09+00:00 mldm y y y y 555 20150101000002.000000 Received 7",
         "2015-01-01T00:00:05+00:00 down7 a b c 200 20150101000002.000000 Inserted 9"] =
        .ok ("prodindex, latency (s)", rows) ∧
      rows.map Prod.fst = [7, 9] ∧ ([(7 : Int), 9]).Nodup ∧
      ∀ r ∈ rows, ∃ sz,
        List.lookup r.1 [((7 : Int), (100 : Int), (3 : Rat)), (9, 200, 3)] =
          some (sz, r.2)) :=
  ⟨by decide,
    @logParserMain_one_row_per_index
      ["2015-01-01T00:00:05+00:00 mldm x x x x 100 20150101000002.000000 Received 7",
       "2015-01-01T00:00:09+00:00 mldm y y y y 555 20150101000002.000000 Received 7",
       "2015-01-01T00:00:05+00:00 down7 a b c 200 20150101000002.000000 Inserted 9"]
      [7, 9] [(7, 100, 3), (9, 200, 3)] (by decide)⟩

lemma countChar_append (s t : String) (c : Char) :
    countChar (s ++ t) c = countChar s c + countChar t c := by
  unfold countChar
  rw [String.data_append, List.count_append]

lemma countChar_empty (c : Char) : countChar "" c = 0 := rfl

lemma countChar_hostArgs (hosts : List String) (c : Char)
    (hc : countChar " " c = 0) (h : ∀ x ∈ hosts, countChar x c = 0) :
    countChar (hostArgs hosts) c = 0 := by
  induction hosts with
  | nil => exact countChar_empty c
  | cons x xs ih =>
      rw [hostArgs, countChar_append, countChar_append, countChar_append]
      rw [hc, h x (List.mem_cons_self _ _),
        ih fun y hy => h y (List.mem_cons_of_mem _ hy)]

lemma buildWithPort_spec (env : Option String) (a : CliArgs) (fx : Bool)
    (p : String) :
    ((buildWithPort env a fx p).1).fifoName =
      "/tmp/blender_" ++ ((buildWithPort env a fx p).1).port ++ ".fifo" ∧
    (buildWithPort env a fx p).2 = !fx :=
  ⟨rfl, rfl⟩

lemma buildLogFilesAndFifo_ok {env : Option String} {a : CliArgs} {fx : Bool}
    {st : BlenderState} {created : Bool}
    (h : buildLogFilesAndFifo env a fx = .ok (st, created)) :
    st.fifoName = "/tmp/blender_" ++ st.port ++ ".fifo" ∧ created = !fx := by
  unfold buildLogFilesAndFifo at h
  split at h
  · next p hp =>
      rw [Except.ok.injEq] at h
      have hst : st = (buildWithPort env a fx p).1 := by rw [h]
      have hcr : created = (buildWithPort env a fx p).2 := by rw [h]
      rw [hst, hcr]
      exact buildWithPort_spec env a fx p
  · split at h
    · cases h
    · split at h
      · cases h
      · next p hp =>
          rw [Except.ok.injEq] at h
          have hst : st = (buildWithPort env a fx p).1 := by rw [h]
          have hcr : created = (buildWithPort env a fx p).2 := by rw [h]
          rw [hst, hcr]
          exact buildWithPort_spec env a fx p



/-- C6: on every invocation the supervisor derives a single FIFO path
`/tmp/blender_<port>.fifo` from the port, attempts `mkfifo` exactly when
the path is absent, and builds the blender command line with its standard
output redirected into that path (the command's only `>`, its only `<`
count being zero) and the noaaportIngester command line with its standard
input redirected from that same path (the command's only `<`). -/
theorem blender_single_fifo_channel (env : Option String) (a : CliArgs)
    (fx : Bool) (st : BlenderState) (created : Bool)
    (hb : buildLogFilesAndFifo env a fx = .ok (st, created))
    (hpath : noRedirChars st.noaaportPath)
    (hnlog : noRedirChars st.noaaportLogFile)
    (hblog : noRedirChars st.blenderLogFile)
    (hport : noRedirChars st.port)
    (hfan : ∀ x ∈ a.fanoutServerAddresses, noRedirChars x) :
    st.fifoName = "/tmp/blender_" ++ st.port ++ ".fifo" ∧
    created = !fx ∧
    (∃ pre, prepareNoaaportCmd st = pre ++ (" < " ++ st.fifoName) ++ " &" ∧
      countChar pre '<' = 0 ∧ countChar pre '>' = 0) ∧
    (∃ pre, prepareBlenderCmd st a = pre ++ ("  > " ++ st.fifoName) ++ " &" ∧
      countChar pre '<' = 0 ∧ countChar pre '>' = 0) ∧
    countChar (prepareNoaaportCmd st) '<' = 1 ∧
    countChar (prepareNoaaportCmd st) '>' = 0 ∧
    countChar (prepareBlenderCmd st a) '>' = 1 ∧
    countChar (prepareBlenderCmd st a) '<' = 0 := by
  obtain ⟨hfifo, hcr⟩ := buildLogFilesAndFifo_ok hb
  have hflt : countChar st.fifoName '<' = 0 := by
    rw [hfifo, countChar_append, countChar_append, hport.1]
    decide
  have hfgt : countChar st.fifoName '>' = 0 := by
    rw [hfifo, countChar_append, countChar_append, hport.2]
    decide
  have hxlt : countChar (if a.debugMode then " -x " else "") '<' = 0 := by
    cases a.debugMode <;> decide
  have hxgt : countChar (if a.debugMode then " -x " else "") '>' = 0 := by
    cases a.debugMode <;> decide
  have hhlt : countChar (hostArgs a.fanoutServerAddresses) '<' = 0 :=
    countChar_hostArgs _ _ (by decide) fun x hx => (hfan x hx).1
  have hhgt : countChar (hostArgs a.fanoutServerAddresses) '>' = 0 :=
    countChar_hostArgs _ _ (by decide) fun x hx => (hfan x hx).2
  refine ⟨hfifo, hcr, ?_, ?_, ?_, ?_, ?_, ?_⟩
  · refine ⟨st.noaaportPath ++ "/noaaportIngester     " ++ " -l " ++
      st.noaaportLogFile, ?_, ?_, ?_⟩
    · apply String.ext
      simp [prepareNoaaportCmd, String.data_append, List.append_assoc]
    · rw [countChar_append, countChar_append, countChar_append,
        hpath.1, hnlog.1]
      decide
    · rw [countChar_append, countChar_append, countChar_append,
        hpath.2, hnlog.2]
      decide
  · refine ⟨st.noaaportPath ++ "/blender " ++ (" -t 0.01 " ++
      (if a.debugMode then " -x " else "") ++
      (" -l " ++ st.blenderLogFile ++ " ") ++
      hostArgs a.fanoutServerAddresses), ?_, ?_, ?_⟩
    · apply String.ext
      simp [prepareBlenderCmd, blenderArgsOf, String.data_append,
        List.append_assoc]
    · simp only [countChar_append, hpath.1, hblog.1, hxlt, hhlt]
      decide
    · simp only [countChar_append, hpath.2, hblog.2, hxgt, hhgt]
      decide
  · unfold prepareNoaaportCmd
    simp only [countChar_append, hpath.1, hnlog.1, hflt]
    decide
  · unfold prepareNoaaportCmd
    simp only [countChar_append, hpath.2, hnlog.2, hfgt]
    decide
  · unfold prepareBlenderCmd blenderArgsOf
    simp only [countChar_append, hpath.2, hblog.2, hxgt, hhgt, hfgt]
    decide
  · unfold prepareBlenderCmd blenderArgsOf
    simp only [countChar_append, hpath.1, hblog.1, hxlt, hhlt, hflt]
    decide

/-- Witness for C6's theorem at a concrete invocation
(`--fanout localhost:1201`, no options, FIFO absent). -/
theorem blender_single_fifo_channel_witness :
    buildLogFilesAndFifo none ⟨false, none, none, none, ["localhost:1201"]⟩
      false =
      .ok (⟨"/home/miles/projects/ldm/src/noaaport",
        "/tmp/noaaport_1201.log", "/tmp/blender_1201.log", "1201",
        "/tmp/blender_1201.fifo"⟩, true) ∧
    (⟨"/home/miles/projects/ldm/src/noaaport", "/tmp/noaaport_1201.log",
      "/tmp/blender_1201.log", "1201",
      "/tmp/blender_1201.fifo"⟩ : BlenderState).fifoName =
      "/tmp/blender_" ++
        (⟨"/home/miles/projects/ldm/src/noaaport", "/tmp/noaaport_1201.log",
          "/tmp/blender_1201.log", "1201",
          "/tmp/blender_1201.fifo"⟩ : BlenderState).port ++ ".fifo" ∧
    countChar (prepareNoaaportCmd
      ⟨"/home/miles/projects/ldm/src/noaaport", "/tmp/noaaport_1201.log",
        "/tmp/blender_1201.log", "1201", "/tmp/blender_1201.fifo"⟩) '<' =
      1 :=
  ⟨by decide,
    (blender_single_fifo_channel none
      ⟨false, none, none, none, ["localhost:1201"]⟩ false
      ⟨"/home/miles/projects/ldm/src/noaaport", "/tmp/noaaport_1201.log",
        "/tmp/blender_1201.log", "1201", "/tmp/blender_1201.fifo"⟩ true
      (by decide) (by decide) (by decide) (by decide) (by decide)
      (by decide)).1,
    (blender_single_fifo_channel none
      ⟨false, none, none, none, ["localhost:1201"]⟩ false
      ⟨"/home/miles/projects/ldm/src/noaaport", "/tmp/noaaport_1201.log",
        "/tmp/blender_1201.log", "1201", "/tmp/blender_1201.fifo"⟩ true
      (by decide) (by decide) (by decide) (by decide) (by decide)
      (by decide)).2.2.2.2.1⟩

lemma updStatus_le_one {st : Nat} (p : Bool) (h : st ≤ 1) : updStatus st p ≤ 1 := by
  cases p <;> simp [updStatus, h]

lemma updStatusIf_le_one {st : Nat} (a b : Bool) (h : st ≤ 1) :
    updStatusIf st a b ≤ 1 := by
  cases a <;> cases b <;> simp [updStatusIf, h]

lemma assertSymlink_le_one (fs : SymlinkFsOutcome) : assertSymlink fs ≤ 1 := by
  unfold assertSymlink
  apply updStatusIf_le_one
  apply updStatusIf_le_one
  apply updStatus_le_one
  apply updStatus_le_one
  apply updStatus_le_one
  exact Nat.zero_le 1

lemma assertDirectoriesRemoved_le_one (fs : EmptyDirsFsOutcome) :
    assertDirectoriesRemoved fs ≤ 1 := by
  unfold assertDirectoriesRemoved
  apply updStatus_le_one
  apply updStatus_le_one
  apply updStatus_le_one
  apply updStatus_le_one
  apply updStatus_le_one
  apply updStatus_le_one
  exact Nat.zero_le 1

/-- C10: each scenario status is 0 or 1, `main` exits with the product
`ed_status * sl_status`, the exit status is nonzero exactly when both
scenario statuses are 1 (both fail), and it is 0 whenever at least one
scenario status is 0. -/
theorem testCscour_exit_is_product (slFs : SymlinkFsOutcome)
    (edFs : EmptyDirsFsOutcome) :
    (assertSymlink slFs = 0 ∨ assertSymlink slFs = 1) ∧
    (assertDirectoriesRemoved edFs = 0 ∨ assertDirectoriesRemoved edFs = 1) ∧
    testCscourExit slFs edFs =
      assertDirectoriesRemoved edFs * assertSymlink slFs ∧
    (testCscourExit slFs edFs ≠ 0 ↔
      assertSymlink slFs = 1 ∧ assertDirectoriesRemoved edFs = 1) ∧
    (testCscourExit slFs edFs = 0 ↔
      assertSymlink slFs = 0 ∨ assertDirectoriesRemoved edFs = 0) := by
  have hs := Nat.le_one_iff_eq_zero_or_eq_one.mp (assertSymlink_le_one slFs)
  have hd := Nat.le_one_iff_eq_zero_or_eq_one.mp
    (assertDirectoriesRemoved_le_one edFs)
  refine ⟨hs, hd, rfl, ?_, ?_⟩ <;>
    unfold testCscourExit <;>
    rcases hs with h1 | h1 <;> rcases hd with h2 | h2 <;>
    rw [h1, h2] <;> decide

/-- C8: `readAccount` returns exactly two values, so the three-name
unpacking at the top of destroy.py and of remove.py raises `ValueError`
and both scripts terminate before issuing any HTTP request (their HTTP
traces are empty). -/
theorem readAccount_pair_unpack3_valueError (u p : String) :
    (readAccount u p).length = 2 ∧
    destroyScriptRun u p = ([], .error .valueError) ∧
    removeScriptRun u p = ([], .error .valueError) :=
  ⟨rfl, rfl, rfl⟩

/-- C4 counterexample: an HTTP error raised by `urlopen` on the
`remove_circuit` request is caught by the first clause
(`except urllib2.URLError`) because `HTTPError` subclasses `URLError`, so
its synthetic payload carries `error_text = 'URLError'`, not
`'HTTPError'` as the claim states. -/
theorem removeCircuit_httpError_gets_URLError_text :
    removeCircuitTryExcept (.raises .httpError) = .ok ⟨none, some "URLError"⟩ ∧
    removeCircuitTryExcept (.raises .httpError) ≠
      .ok ⟨none, some "HTTPError"⟩ := by decide

/-- C4 (amended): a URL error or an HTTP error raised by `urlopen` on
the `remove_circuit` request is caught rather than propagated and replaced
by a synthetic payload whose `results` is `None` and whose `error_text` is
`'URLError'` in both cases; the `HTTPError` clause is unreachable. -/
theorem removeCircuit_tryExcept_substitutes_URLError (e : UrllibError) :
    removeCircuitTryExcept (.raises e) = .ok ⟨none, some "URLError"⟩ := by
  cases e <;> rfl

/-- C5 counterexample: netInfo.py's `add_password` call passes the
literal username `uva4api` and a literal password (and eleven further
sites in OESS-Client-Version_1/provision.py, the OESS-Client-V2 family and
OESS/OESS-Client-V2/provision.py also pass literals), so not every request
of the circuit-management scripts authenticates with credentials read from
a local file. -/
theorem netInfo_site_embeds_credentials :
    (⟨"netInfo.py", 53, dataCgi, "get_<argv[1]>",
      .embedded "uva4api" "AL2Ssenyd2011!"⟩ : OessRequest) ∈
        oessRequestSites ∧
    ¬ (∀ r ∈ oessRequestSites, credFromLocalFile r.auth = true) := by
  constructor
  · decide
  · intro h
    exact absurd
      (h ⟨"netInfo.py", 53, dataCgi, "get_<argv[1]>",
        .embedded "uva4api" "AL2Ssenyd2011!"⟩ (by decide)) (by decide)

/-- C5 (amended): every HTTP request issued by the circuit-management
scripts to the OESS endpoints is authenticated via HTTP Basic auth, but
credentials come from a local file only outside the six scripts of
`embeddedCredScripts`: the top-level scripts, the OESS-Client family and
the mcast_lib/OESS-Client family read the username and password from
`readAccount`'s local YAML credentials file (and OESS-Client-V2/edit.py's
first site reads the local file `/home/yt4xb/etc/OESS-password`), while
netInfo.py, OESS-Client-Version_1/provision.py, OESS-Client-V2's
provision.py, remove.py and edit.py, and OESS/OESS-Client-V2/provision.py
embed literal usernames and passwords at exactly the twelve listed
sites. -/
theorem oess_auth_from_credentials_file :
    (∀ r ∈ oessRequestSites, r.script ∉ embeddedCredScripts →
      r.auth = CredSource.credentialsFile) ∧
    (oessRequestSites.filter fun r => !credFromLocalFile r.auth).map
        (fun r => (r.script, r.line)) =
      [("netInfo.py", 53),
       ("OESS-Client-V2/edit.py", 63), ("OESS-Client-V2/edit.py", 86),
       ("OESS-Client-V2/edit.py", 110), ("OESS-Client-V2/edit.py", 128),
       ("OESS-Client-V2/provision.py", 21),
       ("OESS-Client-V2/provision.py", 54),
       ("OESS-Client-V2/remove.py", 19), ("OESS-Client-V2/remove.py", 35),
       ("OESS-Client-Version_1/provision.py", 21),
       ("OESS/OESS-Client-V2/provision.py", 21),
       ("OESS/OESS-Client-V2/provision.py", 46)] := by
  constructor
  · intro r hr hs
    fin_cases hr <;> first | rfl | exact absurd (by decide) hs
  · decide

/-- Witness for C5's amended theorem at destroy.py's request site. -/
theorem oess_auth_from_credentials_file_witness :
    (⟨"destroy.py", 30, provisioningCgi, "remove_circuit",
      .credentialsFile⟩ : OessRequest) ∈ oessRequestSites ∧
    (⟨"destroy.py", 30, provisioningCgi, "remove_circuit",
      .credentialsFile⟩ : OessRequest).auth = CredSource.credentialsFile :=
  ⟨by decide,
    oess_auth_from_credentials_file.1 _ (by decide) (by decide)⟩

/-- C3: the result logging evaluated on parsed payloads.  The failure
branches of all three scripts and the success branches of remove.py and
provision.py each write exactly one result line as claimed, but
destroy.py's success branch calls `sys.stderr.write()` with no argument
and raises `TypeError`, writing no success line — a slip, as remove.py's
parallel code shows the intent. -/
theorem resultLog_lines :
    destroyResultLog ⟨some [("circuit_id", .str "3101")], none⟩ =
      .error .typeError ∧
    destroyResultLog ⟨none, some "URLError"⟩ =
      .ok [.stderrLine "destroy.py: URLError\n"] ∧
    removeResultLog ⟨some [("circuit_id", .str "3101")], none⟩ =
      .ok [.stderrLine "remove.py: Success\n"] ∧
    removeResultLog ⟨none, some "URLError"⟩ =
      .ok [.stderrLine "remove.py: URLError\n"] ∧
    provisionResultLog ⟨some [("circuit_id", .str "3101")], none⟩ =
      .ok [.fileLine "circuit_id.log" "3101\n", .stdoutLine "3101\n"] ∧
    provisionResultLog ⟨none, some "err"⟩ =
      .ok [.stderrLine "provision.py: err\n"] := by decide

/-- C1: the supervisor's main loop spawns nothing and never sleeps: the
loop condition `while true:` reads the unbound name `true` and raises
`NameError` before any iteration; and the loop body, were it entered,
passes `noaaportCmd` to both `subprocess.Popen` calls (never spawning the
blender command line), then fails with `NameError` on the misspelled
`noaaProc` before waiting, with no sleep event anywhere. -/
theorem noaaportBlenderMain_nameError (n b : String) :
    noaaportBlenderMain n b = ([], .error .nameError) ∧
    noaaportBlenderLoopBody n b =
      ([.spawn n, .spawn n], .error .nameError) ∧
    (b ≠ n → SupEvent.spawn b ∉ (noaaportBlenderLoopBody n b).1) ∧
    SupEvent.sleep ∉ (noaaportBlenderLoopBody n b).1 := by
  refine ⟨rfl, rfl, ?_, ?_⟩
  · intro hne h
    have : noaaportBlenderLoopBody n b =
        ([.spawn n, .spawn n], .error .nameError) := rfl
    rw [this] at h
    simp at h
    exact hne h
  · have : noaaportBlenderLoopBody n b =
        ([.spawn n, .spawn n], .error .nameError) := rfl
    rw [this]
    simp

/-- Witness for C1's theorem at concrete command lines. -/
theorem noaaportBlenderMain_nameError_witness :
    noaaportBlenderMain "ingester-cmd" "blender-cmd" =
      ([], .error .nameError) ∧
    ("blender-cmd" ≠ "ingester-cmd") ∧
    SupEvent.spawn "blender-cmd" ∉
      (noaaportBlenderLoopBody "ingester-cmd" "blender-cmd").1 :=
  ⟨(noaaportBlenderMain_nameError _ _).1, by decide,
    (noaaportBlenderMain_nameError _ _).2.2.1 (by decide)⟩

end LDM
